import Mathlib

/-!
# Verification of the newsletter scoring / classification / selection / personalization core

A shallow embedding, in Lean 4, of the algorithmic core of the AI-newsletter
pipeline:

* `src/processors/article_selector.py` (section selection with mandatory picks),
* `src/processors/section_classifier.py` (ordered heuristic classification),
* `src/processors/scorer.py` (multi-factor multiplicative scoring),
* `src/services/personalization_service.py` (preference learning, boosting,
  likelihood prediction, incremental file-set-aware caching).

Modelling conventions:

* Python `float` values are modelled as exact rationals (`ℚ`); rational
  constants are written with `mkRat` (e.g. `mkRat 6 10` for the literal `0.6`).
* Python `int(x)` truncation toward zero is `pyInt`; `round(x, 2)` is
  `pyRound2` (round-half-to-even at two decimals, as CPython's `round`).
* Python string lowering / splitting / stripping / substring-membership are
  modelled character-exactly for the ASCII range by `pyLower`, `pySplitWs`,
  `pyStrip` and `strContains`.
* Python list slicing `l[:n]` (which, for negative `n`, drops elements from
  the end) is `pyTake`.
* The file system seen by the personalization learner is an explicit
  association list from file names to (optionally parseable) review data, and
  the persisted `profile_cache.json` is an explicit optional value threaded
  through `analyzeHistoricalSelections`.
* `datetime` values are replaced by the article's age in days at scoring
  time (`published : Option ℤ`, `none` meaning "no timestamp"), which is the
  only use the scorer makes of them.
* Division by zero raises in Python; the one reachable site
  (`predict_selection_likelihood` when `score_threshold == 10`) is modelled
  by an `Option` result, `none` meaning the raised `ZeroDivisionError`.
-/

/-! ## Python primitives -/

/-- Python `int(q)` for a float `q`: truncation toward zero. -/
def pyInt (q : ℚ) : ℤ := Int.tdiv q.num q.den

/-- Python slicing `l[:n]`: for `n ≥ 0` the first `n` elements, for `n < 0`
all but the last `-n` elements (empty when `-n` exceeds the length). -/
def pyTake (n : ℤ) (l : List α) : List α :=
  if 0 ≤ n then l.take n.toNat else l.take (l.length - (-n).toNat)

/-- Round-half-to-even to an integer (CPython's rounding mode for `round`). -/
def rhe (y : ℚ) : ℤ :=
  let n := Rat.floor y
  let f := y - (n : ℚ)
  if f < mkRat 1 2 then n
  else if mkRat 1 2 < f then n + 1
  else if n % 2 = 0 then n else n + 1

/-- Python `round(q, 2)`: nearest multiple of 1/100, ties to even. -/
def pyRound2 (q : ℚ) : ℚ := mkRat (rhe (q * 100)) 100

/-- Python `str.lower()` on one character (ASCII range, which is all the
source's keyword tables use). -/
def pyLowerChar (c : Char) : Char :=
  if 65 ≤ c.toNat ∧ c.toNat ≤ 90 then Char.ofNat (c.toNat + 32) else c

/-- Python `str.lower()`. -/
def pyLower (s : String) : String := ⟨s.data.map pyLowerChar⟩

/-- `needle` is a prefix of `hay` (on character lists). -/
def isPrefixB : List Char → List Char → Bool
  | [], _ => true
  | _ :: _, [] => false
  | a :: as, b :: bs => a == b && isPrefixB as bs

/-- `needle` occurs contiguously inside `hay` (on character lists). -/
def isInfixB (needle : List Char) : List Char → Bool
  | [] => isPrefixB needle []
  | c :: rest => isPrefixB needle (c :: rest) || isInfixB needle rest

/-- Python `needle in hay` for strings. -/
def strContains (hay needle : String) : Bool := isInfixB needle.data hay.data

/-- Worker for `pySplitWs`: accumulates the current (reversed) word. -/
def splitWsAux : List Char → List Char → List String
  | [], acc => if acc.isEmpty then [] else [⟨acc.reverse⟩]
  | c :: cs, acc =>
    if c.isWhitespace then
      if acc.isEmpty then splitWsAux cs [] else ⟨acc.reverse⟩ :: splitWsAux cs []
    else splitWsAux cs (c :: acc)

/-- Python `str.split()` with no argument: split on whitespace runs,
discarding empty tokens. -/
def pySplitWs (s : String) : List String := splitWsAux s.data []

/-- The characters of Python's `w.strip('.,!?;:"\x27')` strip set
(the two quote characters are written by code point). -/
def stripSet : List Char := ['.', ',', '!', '?', ';', ':', Char.ofNat 34, Char.ofNat 39]

/-- Python `w.strip('.,!?;:"\x27')`: remove leading and trailing characters
belonging to `stripSet`. -/
def pyStrip (w : String) : String :=
  ⟨((w.data.dropWhile (stripSet.contains ·)).reverse.dropWhile
      (stripSet.contains ·)).reverse⟩

/-- Lexicographic strict comparison on character lists (by code point),
modelling Python's string `<`. -/
def strLtB : List Char → List Char → Bool
  | [], [] => false
  | [], _ :: _ => true
  | _ :: _, [] => false
  | a :: as, b :: bs => a.toNat < b.toNat || (a == b && strLtB as bs)

/-- `≤` on strings, used to model Python's `sorted`. -/
def strLeB (a b : String) : Bool := !(strLtB b.data a.data)

/-! ## Data model: articles (`sources/rss_fetcher.py`, class `Article`)

`published` holds the article's age in days at scoring time (`none`: no
timestamp); `sectionLabel` is the source's `section` attribute (a Lean
keyword); equality of two `Article` values models Python dataclass
field-wise `==`, which is what `in` / `not in` use in the selector. -/

structure Article where
  title : String
  url : String
  source : String
  published : Option ℤ
  summary : String
  category : String := ""
  priority : String := "medium"
  score : ℚ := 0
  sectionLabel : String := ""
  sentiment : String := ""
  deriving DecidableEq, Repr

/-! ## `processors/article_selector.py` -/

/-- `CANADIAN_GOV_KEYWORDS`. -/
def CANADIAN_GOV_KEYWORDS : List String :=
  ["government of canada", "canadian government", "federal government",
   "parliament", "minister", "department of", "innovation canada",
   "canadian digital", "canadian ai", "ised", "treasury board",
   "algorithm impact assessment", "provincial government", "province of",
   "statscan", "statistics canada"]

/-- `GOVERNANCE_KEYWORDS`. -/
def GOVERNANCE_KEYWORDS : List String :=
  ["regulation", "regulation ai", "regulatory", "legislation", "law",
   "compliance", "governance", "policy", "ethics", "safety", "alignment",
   "responsible ai", "oversight", "audit", "transparency", "accountability",
   "bill", "act", "framework"]

/-- `is_canadian_government_story`: keyword search over
`(title + " " + summary + " " + source).lower()`. -/
def isCanadianGovernmentStory (a : Article) : Bool :=
  let text := pyLower (a.title ++ " " ++ a.summary ++ " " ++ a.source)
  CANADIAN_GOV_KEYWORDS.any (fun kw => strContains text kw)

/-- `is_governance_story`: keyword search over `(title + " " + summary).lower()`. -/
def isGovernanceStory (a : Article) : Bool :=
  let text := pyLower (a.title ++ " " ++ a.summary)
  GOVERNANCE_KEYWORDS.any (fun kw => strContains text kw)

/-- The selector's section configuration (`config['sections']`), with the
target counts used by `auto_select_articles`. The source reads
`grain_quality` only for its `enabled` flag; its target count is carried
here so that quota claims about that section can be stated. -/
structure SelectorConfig where
  targetHeadlines : ℕ := 8
  targetBrightSpots : ℕ := 2
  targetTools : ℕ := 1
  targetDeepDives : ℕ := 4
  governanceRatio : ℚ := mkRat 6 10
  grainEnabled : Bool := true
  targetGrainQuality : ℕ := 1
  deriving DecidableEq, Repr

/-- The returned selection: one list per newsletter section. -/
structure Selection where
  headlines : List Article
  brightSpots : List Article
  tools : List Article
  deepDives : List Article
  grainQuality : List Article
  deriving DecidableEq, Repr

/-- The per-section bucketing at the top of `auto_select_articles`:
a recognized `article.section` keeps its bucket, anything else defaults to
`headline`. -/
def bucketOf (a : Article) : String :=
  if a.sectionLabel = "bright_spot" ∨ a.sectionLabel = "tool"
      ∨ a.sectionLabel = "deep_dive" ∨ a.sectionLabel = "grain_quality" then
    a.sectionLabel
  else "headline"

/-- The `classified_articles['headline']` pool. -/
def headlinePool (pool : List Article) : List Article :=
  pool.filter (fun a => decide (bucketOf a = "headline"))

/-- Rule 1 of the headlines selection: the first Canadian-government story of
the headline pool, if any (`canadian_gov_stories[0]`). -/
def canadianPick (pool : List Article) : List Article :=
  (headlinePool pool |>.filter (fun a => isCanadianGovernmentStory a)).take 1

/-- Rule 2: the first governance story not already selected
(`next((a for a in governance_stories if a not in selection['headlines']), None)`). -/
def governancePick (pool : List Article) : Option Article :=
  (headlinePool pool |>.filter (fun a => isGovernanceStory a)).find?
    (fun a => decide (¬ a ∈ canadianPick pool))

/-- The headline list after the two mandatory picks. -/
def mandatoryPicks (pool : List Article) : List Article :=
  canadianPick pool ++ (governancePick pool).toList

/-- `remaining_headlines`: headline-pool articles not already selected. -/
def remainingHeadlines (pool : List Article) : List Article :=
  headlinePool pool |>.filter (fun a => decide (¬ a ∈ mandatoryPicks pool))

/-- `governance_articles`: governance stories among the remaining pool. -/
def governanceArticles (pool : List Article) : List Article :=
  remainingHeadlines pool |>.filter (fun a => isGovernanceStory a)

/-- `other_articles`: remaining articles not in `governance_articles`
(the source tests list membership, not the predicate). -/
def otherArticles (pool : List Article) : List Article :=
  remainingHeadlines pool |>.filter (fun a => decide (¬ a ∈ governanceArticles pool))

/-- `needed = target_headlines - len(selection['headlines'])` after the
mandatory picks (a Python `int`, possibly negative). -/
def neededSlots (pool : List Article) (cfg : SelectorConfig) : ℤ :=
  (cfg.targetHeadlines : ℤ) - (mandatoryPicks pool).length

/-- `target_governance = max(0, int(target_headlines * governance_ratio))`. -/
def targetGovernance (cfg : SelectorConfig) : ℤ :=
  max 0 (pyInt ((cfg.targetHeadlines : ℚ) * cfg.governanceRatio))

/-- `current_governance`: governance stories among the mandatory picks. -/
def currentGovernance (pool : List Article) : ℕ :=
  (mandatoryPicks pool).countP (fun a => isGovernanceStory a)

/-- `needed_governance = max(0, target_governance - current_governance)`. -/
def neededGovernance (pool : List Article) (cfg : SelectorConfig) : ℤ :=
  max 0 (targetGovernance cfg - currentGovernance pool)

/-- `needed_other = needed - needed_governance` (possibly negative, in which
case the subsequent Python slice drops elements from the end). -/
def neededOther (pool : List Article) (cfg : SelectorConfig) : ℤ :=
  neededSlots pool cfg - neededGovernance pool cfg

/-- `governance_articles[:needed_governance]`. -/
def governanceFill (pool : List Article) (cfg : SelectorConfig) : List Article :=
  pyTake (neededGovernance pool cfg) (governanceArticles pool)

/-- `other_articles[:needed_other]`. -/
def otherFill (pool : List Article) (cfg : SelectorConfig) : List Article :=
  pyTake (neededOther pool cfg) (otherArticles pool)

/-- `auto_select_articles` (`article_selector.py`): the selection logic with
all logging removed. The sentiment-distribution check only logs, so it does
not appear in the returned value. -/
def autoSelectArticles (pool : List Article) (cfg : SelectorConfig) : Selection :=
  { headlines := mandatoryPicks pool ++ governanceFill pool cfg ++ otherFill pool cfg
    brightSpots := (pool.filter (fun a => decide (bucketOf a = "bright_spot"))).take cfg.targetBrightSpots
    tools := (pool.filter (fun a => decide (bucketOf a = "tool"))).take cfg.targetTools
    deepDives := (pool.filter (fun a => decide (bucketOf a = "deep_dive"))).take cfg.targetDeepDives
    grainQuality :=
      if cfg.grainEnabled then pool.filter (fun a => decide (bucketOf a = "grain_quality")) else [] }

/-! ## `processors/section_classifier.py` -/

/-- `BRIGHT_SPOT_KEYWORDS`. -/
def BRIGHT_SPOT_KEYWORDS : List String :=
  ["breakthrough", "cure", "innovation", "success", "achievement", "milestone",
   "wins", "discovery", "medical advance", "health benefit",
   "positive development", "good news", "solution", "beat", "exceeds", "record"]

/-- `TOOL_KEYWORDS`. -/
def TOOL_KEYWORDS : List String :=
  ["tool", "platform", "app", "application", "launch", "release", "product",
   "library", "framework", "announces", "introduces", "debuts", "new service",
   "available now", "download", "open source"]

/-- `GRAIN_QUALITY_KEYWORDS`. -/
def GRAIN_QUALITY_KEYWORDS : List String :=
  ["agriculture", "farming", "grain", "crop", "harvest", "agricultural",
   "farm", "wheat", "corn", "rice", "quality control", "soil", "farmer"]

/-- `has_positive_sentiment_keywords(title, summary)`. -/
def hasPositiveSentimentKeywords (title summary : String) : Bool :=
  let text := pyLower (title ++ " " ++ summary)
  BRIGHT_SPOT_KEYWORDS.any (fun kw => strContains text kw)

/-- `has_tool_keywords(title, summary)`. -/
def hasToolKeywords (title summary : String) : Bool :=
  let text := pyLower (title ++ " " ++ summary)
  TOOL_KEYWORDS.any (fun kw => strContains text kw)

/-- `academic_indicators` used by `is_research_paper`. -/
def academicIndicators : List String :=
  ["research", "study", "analysis", "findings", "model", "framework", "algorithm"]

/-- `is_research_paper`: arxiv / academic-source keywords over
`(title + " " + source + " " + summary).lower()`, else at least two academic
indicators in the lowered title. -/
def isResearchPaper (a : Article) : Bool :=
  let text := pyLower (a.title ++ " " ++ a.source ++ " " ++ a.summary)
  if strContains text "arxiv" then true
  else if ["arxiv", "research paper", "journal", "university", "academic"].any
      (fun kw => strContains text kw) then true
  else
    (academicIndicators.countP
      (fun kw => strContains (pyLower a.title) kw)) ≥ 2

/-- `is_long_form`: summary longer than 400 whitespace-separated words, or a
report/whitepaper keyword in `(title + " " + source).lower()`. -/
def isLongForm (a : Article) : Bool :=
  if (pySplitWs a.summary).length > 400 then true
  else
    let text := pyLower (a.title ++ " " ++ a.source)
    ["white paper", "report", "analysis", "deep dive"].any
      (fun kw => strContains text kw)

/-- `has_grain_keywords`. -/
def hasGrainKeywords (a : Article) : Bool :=
  let text := pyLower (a.title ++ " " ++ a.summary)
  GRAIN_QUALITY_KEYWORDS.any (fun kw => strContains text kw)

/-- `classify_article_section`.  The Gemini call (`detect_sentiment`) is an
external oracle; `oracle a` stands for its returned string, which on any
error path inside `detect_sentiment` is `"neutral"` — the classifier itself
only compares the result with `"positive"`.  `useSentimentApi` is the
`use_sentiment_api` argument and `geminiAvailable` the module-level
`GEMINI_AVAILABLE` flag. -/
def classifyArticleSection (a : Article) (useSentimentApi geminiAvailable : Bool)
    (oracle : Article → String) : String :=
  if hasGrainKeywords a then "grain_quality"
  else if a.category = "tools" ∨ hasToolKeywords a.title a.summary = true then "tool"
  else if isResearchPaper a = true ∨ isLongForm a = true then "deep_dive"
  else
    let isPositive :=
      if useSentimentApi && geminiAvailable then oracle a == "positive"
      else hasPositiveSentimentKeywords a.title a.summary
    if isPositive then "bright_spot" else "headline"

/-! ## `processors/scorer.py`

`score_articles` first normalizes the topics configuration
(`_normalize_topics_config`) into a list of records with lower-cased keyword
lists and a numeric boost; the embedding starts from that normalized form
(the dict-vs-list juggling and the `float(...)`-with-fallback parse belong to
the configuration boundary). -/

/-- One normalized topic rule (`{'category': …, 'keywords': …, 'boost': …}`). -/
structure TopicRule where
  category : String
  keywords : List String
  boost : ℚ
  deriving DecidableEq, Repr

/-- The configuration slice consumed by `score_articles`. -/
structure ScorerConfig where
  topics : List TopicRule := []
  canadianKeywords : List String := []
  canadianBoost : ℚ := mkRat 3 2
  excludePatterns : List String := []
  deriving DecidableEq, Repr

/-- `_calculate_topic_score_fast`: over all topics with a nonempty keyword
list, count keyword hits in the pre-lowered text; a topic with hits scores
`matches * boost`; the best strict improvement wins (first seen kept on
ties).  Returns `(best_score, best_category)`. -/
def calculateTopicScoreFast (textLower : String) (topics : List TopicRule) : ℚ × String :=
  topics.foldl
    (fun best topic =>
      if topic.keywords.isEmpty then best
      else
        let matchCount := topic.keywords.countP (fun kw => strContains textLower kw)
        if 0 < matchCount then
          let categoryScore := (matchCount : ℚ) * topic.boost
          if best.1 < categoryScore then (categoryScore, topic.category) else best
        else best)
    (0, "")

/-- `calculate_canadian_score`: `boost * min(matches, 3)` when at least one
(lower-cased) Canadian keyword occurs in the text, else `1.0`. -/
def calculateCanadianScore (canadianKeywords : List String) (boost : ℚ)
    (textLower : String) : ℚ :=
  let matchCount := canadianKeywords.countP (fun kw => strContains textLower (pyLower kw))
  if 0 < matchCount then boost * (min matchCount 3 : ℕ) else 1

/-- `calculate_recency_score` as a function of the article's age in days
(`none`: no `published` timestamp). -/
def calculateRecencyScore (published : Option ℤ) : ℚ :=
  match published with
  | none => mkRat 1 2
  | some daysOld =>
    if daysOld ≤ 1 then 1
    else if daysOld ≤ 3 then mkRat 8 10
    else if daysOld ≤ 5 then mkRat 6 10
    else if daysOld ≤ 7 then mkRat 4 10
    else mkRat 2 10

/-- `calculate_priority_score`: `{'high': 1.5, 'medium': 1.0, 'low': 0.5}`
with `dict.get` default `1.0`. -/
def calculatePriorityScore (priority : String) : ℚ :=
  if priority = "high" then mkRat 3 2
  else if priority = "medium" then 1
  else if priority = "low" then mkRat 1 2
  else 1

/-- `should_exclude`: some lower-cased exclude pattern occurs in the text. -/
def shouldExclude (excludePatterns : List String) (textLower : String) : Bool :=
  excludePatterns.any (fun p => strContains textLower (pyLower p))

/-- The text `f"{title} {summary}".lower()` computed once per article. -/
def articleTextLower (a : Article) : String := pyLower (a.title ++ " " ++ a.summary)

/-- The per-article body of the `score_articles` loop: `none` when the
article is excluded, otherwise the article with its `category` (possibly)
reassigned and its final rounded score stored. -/
def scoreOneArticle (cfg : ScorerConfig) (a : Article) : Option Article :=
  let textLower := articleTextLower a
  if shouldExclude cfg.excludePatterns textLower then none
  else
    let ts := calculateTopicScoreFast textLower cfg.topics
    let canadianMultiplier := calculateCanadianScore cfg.canadianKeywords cfg.canadianBoost textLower
    let recencyScore := calculateRecencyScore a.published
    let priorityScore := calculatePriorityScore a.priority
    let category := if ts.2 ≠ "" then ts.2 else a.category
    let baseScore := max ts.1 1
    let finalScore := baseScore * canadianMultiplier * recencyScore * priorityScore
    some { a with category := category, score := pyRound2 finalScore }

/-- `score_articles`: filter/score every article, then sort by score
descending (Python's stable `list.sort(key=…, reverse=True)`, modelled by a
stable insertion sort that keeps earlier elements first on ties). -/
def scoreArticles (articles : List Article) (cfg : ScorerConfig) : List Article :=
  List.insertionSort (fun x y => y.score ≤ x.score)
    (articles.filterMap (scoreOneArticle cfg))

/-! ## `services/personalization_service.py`

`collections.Counter` objects are modelled as association lists
`List (String × ℤ)` in key-insertion order: incrementing an existing key
updates it in place, a new key is appended — exactly the iteration order a
`Counter` exposes.  `Counter.most_common(n)` is a stable sort by decreasing
count followed by `take n`, matching CPython (`sorted` is stable and
`reverse=True` preserves the order of ties). -/

/-- Increment `key` by `n` in a counter. -/
def counterAdd (c : List (String × ℤ)) (key : String) (n : ℤ) : List (String × ℤ) :=
  if c.any (fun p => p.1 == key) then
    c.map (fun p => if p.1 = key then (p.1, p.2 + n) else p)
  else c ++ [(key, n)]

/-- `Counter.update(other)`: merge `other` into `c`, iterating `other` in
order. -/
def counterUpdate (c other : List (String × ℤ)) : List (String × ℤ) :=
  other.foldl (fun acc p => counterAdd acc p.1 p.2) c

/-- `Counter.update(keywords)` for a list of keys (each counted once per
occurrence). -/
def counterAddKeys (c : List (String × ℤ)) (keys : List String) : List (String × ℤ) :=
  keys.foldl (fun acc k => counterAdd acc k 1) c

/-- `Counter.most_common(n)`. -/
def counterMostCommon (n : ℕ) (c : List (String × ℤ)) : List (String × ℤ) :=
  (List.insertionSort (fun a b => b.2 ≤ a.2) c).take n

/-- `max(counter.values())` (0 for the empty counter, which the source never
asks for). -/
def counterMaxValue (c : List (String × ℤ)) : ℤ :=
  match c with
  | [] => 0
  | p :: ps => ps.foldl (fun m q => max m q.2) p.2

/-- `min(scores)` over a nonempty Python list, `none` when empty. -/
def listMinQ (l : List ℚ) : Option ℚ :=
  match l with
  | [] => none
  | x :: xs => some (xs.foldl min x)

/-- `max(scores)` over a nonempty Python list, `none` when empty. -/
def listMaxQ (l : List ℚ) : Option ℚ :=
  match l with
  | [] => none
  | x :: xs => some (xs.foldl max x)

/-- The stop-word set of `_extract_keywords`. -/
def stopwords : List String :=
  ["the", "and", "with", "from", "this", "that", "will", "have",
   "been", "are", "your", "more", "about", "into", "than", "just",
   "which", "some", "would", "could", "should", "their", "after",
   "where", "what", "when", "these", "other", "very", "between"]

/-- `_extract_keywords`: lower the text, split on whitespace, keep tokens
whose stripped form is longer than 4 characters and whose (re-)lowered form
is not a stop word, and return the stripped forms. -/
def extractKeywords (text : String) : List String :=
  ((pySplitWs (pyLower text)).filter
      (fun w => decide (4 < (pyStrip w).length) && !(stopwords.contains (pyLower w)))).map
    pyStrip

/-- One entry of a review file's `selected` list (`source`, `category`,
`title`, `score`); `score = none` models a value failing the
`isinstance(score, (int, float))` check (an absent key defaults to the
numeric `0.0`). -/
structure SelRecord where
  source : String
  category : String
  title : String
  score : Option ℚ
  deriving DecidableEq, Repr

/-- The parsed content of one review file: the number of articles under each
key of `categories` (only their lengths are read), and the `selected` list. -/
structure ReviewData where
  categoriesCounts : List (String × ℕ)
  selected : List SelRecord
  deriving DecidableEq, Repr

/-- The per-file statistics returned by `_process_review_file`. -/
structure FileStats where
  selectedCount : ℤ
  availableCount : ℤ
  sourceSelections : List (String × ℤ)
  categorySelections : List (String × ℤ)
  allKeywords : List (String × ℤ)
  scores : List ℚ
  deriving DecidableEq, Repr

/-- `_process_review_file`: `none` models an unreadable/unparseable file
(the `except` branch returning `None`). -/
def processReviewFile (content : Option ReviewData) : Option FileStats :=
  match content with
  | none => none
  | some rd =>
    some
      { selectedCount := rd.selected.length
        availableCount := (rd.categoriesCounts.map (fun p => (p.2 : ℤ))).sum
        sourceSelections :=
          rd.selected.foldl (fun c a => counterAdd c a.source 1) []
        categorySelections :=
          rd.selected.foldl (fun c a => counterAdd c a.category 1) []
        allKeywords :=
          rd.selected.foldl (fun c a => counterAddKeys c (extractKeywords a.title)) []
        scores := rd.selected.filterMap (fun a => a.score) }

/-- The aggregated statistics held in `profile_cache.json` (`stats`). -/
structure Stats where
  totalSelections : ℤ
  totalAvailable : ℤ
  sourceSelections : List (String × ℤ)
  categorySelections : List (String × ℤ)
  allKeywords : List (String × ℤ)
  scoresMin : Option ℚ
  scoresMax : Option ℚ
  deriving DecidableEq, Repr

/-- The zeroed aggregate used when no cache exists or after a reset. -/
def initialStats : Stats :=
  { totalSelections := 0, totalAvailable := 0, sourceSelections := [],
    categorySelections := [], allKeywords := [], scoresMin := none,
    scoresMax := none }

/-- Merging one processed file's statistics into the aggregate (the four
`+=`/`update` lines of the processing loop; scores are batched separately). -/
def mergeFileStats (agg : Stats) (fs : FileStats) : Stats :=
  { agg with
    totalSelections := agg.totalSelections + fs.selectedCount
    totalAvailable := agg.totalAvailable + fs.availableCount
    sourceSelections := counterUpdate agg.sourceSelections fs.sourceSelections
    categorySelections := counterUpdate agg.categorySelections fs.categorySelections
    allKeywords := counterUpdate agg.allKeywords fs.allKeywords }

/-- The `if new_scores:` block: fold the batch minimum/maximum into the
aggregate's running score range. -/
def applyNewScores (agg : Stats) (newScores : List ℚ) : Stats :=
  match listMinQ newScores, listMaxQ newScores with
  | some bmin, some bmax =>
    { agg with
      scoresMin := some (match agg.scoresMin with | none => bmin | some m => min m bmin)
      scoresMax := some (match agg.scoresMax with | none => bmax | some m => max m bmax) }
  | _, _ => agg

/-- `PreferenceProfile` with its constructor defaults. -/
structure PreferenceProfile where
  sourcePreferences : List (String × ℚ) := []
  categoryPreferences : List (String × ℚ) := []
  keywordPreferences : List (String × ℤ) := []
  scoreThreshold : ℚ := 0
  scoreRange : ℚ × ℚ := (0, 10)
  totalSelections : ℤ := 0
  totalAvailable : ℤ := 0
  selectionRate : ℚ := 0
  preferredCategories : List String := []
  preferredSources : List String := []
  deriving DecidableEq, Repr

/-- `_build_profile_from_stats`. -/
def buildProfileFromStats (stats : Stats) : PreferenceProfile :=
  let base : PreferenceProfile :=
    { totalSelections := stats.totalSelections
      totalAvailable := stats.totalAvailable
      selectionRate :=
        if 0 < stats.totalAvailable then
          (stats.totalSelections : ℚ) / (stats.totalAvailable : ℚ)
        else 0 }
  let base :=
    match stats.scoresMin, stats.scoresMax with
    | some smin, some smax =>
      { base with scoreThreshold := smin, scoreRange := (smin, smax) }
    | _, _ => base
  let base :=
    if stats.sourceSelections.isEmpty then base
    else
      let maxCount := counterMaxValue stats.sourceSelections
      { base with
        sourcePreferences :=
          stats.sourceSelections.map (fun p => (p.1, 1 + (p.2 : ℚ) / (maxCount : ℚ)))
        preferredSources := (counterMostCommon 5 stats.sourceSelections).map (fun p => p.1) }
  let base :=
    if stats.categorySelections.isEmpty then base
    else
      let maxCount := counterMaxValue stats.categorySelections
      { base with
        categoryPreferences :=
          stats.categorySelections.map (fun p => (p.1, 1 + (p.2 : ℚ) / (maxCount : ℚ)))
        preferredCategories := (counterMostCommon 5 stats.categorySelections).map (fun p => p.1) }
  { base with keywordPreferences := counterMostCommon 20 stats.allKeywords }

/-- The persisted `profile_cache.json`: the processed file names and the
aggregated statistics (the `last_updated` timestamp carries no information
used by the learner and is omitted). -/
structure CacheData where
  processedFiles : List String
  stats : Stats
  deriving DecidableEq, Repr

/-- The observable outcome of one `analyze_historical_selections` run:
the returned profile, the cache file state after the run, and which review
files were opened (in processing order). -/
structure AnalyzeResult where
  profile : PreferenceProfile
  cacheAfter : Option CacheData
  filesRead : List String
  deriving DecidableEq, Repr

/-- One iteration of the `for review_file in sorted(new_files)` processing
loop: an unparseable file is skipped, otherwise its statistics are merged
and its scores collected into the `new_scores` batch. -/
def processReviewStep (acc : Stats × List ℚ) (f : String × Option ReviewData) :
    Stats × List ℚ :=
  match processReviewFile f.2 with
  | none => acc
  | some fs => (mergeFileStats acc.1 fs, acc.2 ++ fs.scores)

/-- `sorted(new_files)`: review files in file-name order. -/
def sortReviewFiles (files : List (String × Option ReviewData)) :
    List (String × Option ReviewData) :=
  List.insertionSort (fun a b => strLeB a.1 b.1) files

/-- Processing a batch of files on top of an aggregate: the sorted loop
followed by the batch score-range fold (the `if new_scores:` block). -/
def processFiles (agg : Stats) (files : List (String × Option ReviewData)) : Stats :=
  let processed := (sortReviewFiles files).foldl processReviewStep (agg, [])
  applyNewScores processed.1 processed.2

/-- `analyze_historical_selections`, as a function of the on-disk review
files (name ↦ optionally-parseable content) and the current cache file.
The in-memory `self.preference_profile` starts at its constructor default,
which is what the early `return self.preference_profile` paths return.
`all_processed_files` is a Python `list(set | set)` whose element order is
unspecified; it is modelled here as an order-preserving deduplicated append,
and nothing downstream reads it other than as a set. -/
def analyzeHistoricalSelections (disk : List (String × Option ReviewData))
    (cache : Option CacheData) : AnalyzeResult :=
  let cachedFiles := match cache with | some c => c.processedFiles | none => []
  let aggregated := match cache with | some c => c.stats | none => initialStats
  if disk.isEmpty then
    { profile := {}, cacheAfter := cache, filesRead := [] }
  else
    let currentFiles := disk.map (fun f => f.1)
    let newFiles := disk.filter (fun f => !(cachedFiles.contains f.1))
    let missingFiles := cachedFiles.filter (fun n => !(currentFiles.contains n))
    let reset := !missingFiles.isEmpty
    let aggregated := if reset then initialStats else aggregated
    let newFiles := if reset then disk else newFiles
    let cachedFiles := if reset then [] else cachedFiles
    if newFiles.isEmpty && missingFiles.isEmpty then
      { profile := buildProfileFromStats aggregated, cacheAfter := cache, filesRead := [] }
    else
      let finalStats := processFiles aggregated newFiles
      { profile := buildProfileFromStats finalStats
        cacheAfter :=
          some { processedFiles := (cachedFiles ++ newFiles.map (fun f => f.1)).dedup
                 stats := finalStats }
        filesRead := (sortReviewFiles newFiles).map (fun f => f.1) }

/-- The article dictionaries consumed by `boost_article_score` /
`predict_selection_likelihood` (`score` is taken to be numeric; a
non-numeric value is replaced by `0.0` by the source before use). -/
structure PArticle where
  source : String
  category : String
  title : String
  score : ℚ
  deriving DecidableEq, Repr

/-- `boost_article_score`: original score plus a `(multiplier − 1) × score`
contribution for a preferred source and for a preferred category, plus
`frequency * 0.1` per profile keyword occurring in the lowered title, all
rounded to two decimals. -/
def boostArticleScore (article : PArticle) (profile : PreferenceProfile) : ℚ :=
  let originalScore := article.score
  let sourceBoost :=
    match profile.sourcePreferences.lookup article.source with
    | some m => (m - 1) * originalScore
    | none => 0
  let categoryBoost :=
    match profile.categoryPreferences.lookup article.category with
    | some m => (m - 1) * originalScore
    | none => 0
  let titleLower := pyLower article.title
  let keywordBoost :=
    (profile.keywordPreferences.map
        (fun p => if strContains titleLower (pyLower p.1) then (p.2 : ℚ) * mkRat 1 10 else 0)).sum
  pyRound2 (originalScore + (sourceBoost + categoryBoost + keywordBoost))

/-- `predict_selection_likelihood`.  Returns `none` exactly on the
`ZeroDivisionError` path (`score_threshold == 10` with historical data
present); otherwise `some` of the 0–100 integer percentage. -/
def predictSelectionLikelihood (article : PArticle) (profile : PreferenceProfile) :
    Option ℤ :=
  if profile.totalSelections = 0 then some 50
  else if 0 < profile.scoreThreshold ∧ (10 : ℚ) - profile.scoreThreshold = 0 then none
  else
    let score := article.score
    -- the source computes `score_range = max_score - min_score if … else 1.0`
    -- from `profile.score_range` here and never uses it
    let baseLikelihood : ℚ :=
      if 0 < profile.scoreThreshold then
        let scoreNormalized :=
          (score - profile.scoreThreshold) / ((10 : ℚ) - profile.scoreThreshold)
        max 0 (min 100 (scoreNormalized * 80))
      else 50
    let baseLikelihood :=
      if profile.preferredSources.contains article.source then baseLikelihood + 10
      else baseLikelihood
    let baseLikelihood :=
      if profile.preferredCategories.contains article.category then baseLikelihood + 10
      else baseLikelihood
    let titleLower := pyLower article.title
    let keywordBoost : ℤ :=
      2 * profile.keywordPreferences.countP
            (fun p => strContains titleLower (pyLower p.1))
    let baseLikelihood := baseLikelihood + ((min keywordBoost 10 : ℤ) : ℚ)
    some (max 0 (min 100 (pyInt baseLikelihood)))

/-- Spec reading of the likelihood normalization for the refinement check of
claim C4: the same computation, but with the normalized-score term scaled
against the historical min/max of previously selected scores — i.e. using
the `score_range` span the source computes and then abandons — instead of
the fixed ceiling `10.0`. -/
def predictSelectionLikelihoodSpecMinMax (article : PArticle)
    (profile : PreferenceProfile) : Option ℤ :=
  if profile.totalSelections = 0 then some 50
  else
    let score := article.score
    let minScore := profile.scoreRange.1
    let maxScore := profile.scoreRange.2
    let scoreRange := if minScore < maxScore then maxScore - minScore else 1
    let baseLikelihood : ℚ :=
      if 0 < profile.scoreThreshold then
        max 0 (min 100 ((score - profile.scoreThreshold) / scoreRange * 80))
      else 50
    let baseLikelihood :=
      if profile.preferredSources.contains article.source then baseLikelihood + 10
      else baseLikelihood
    let baseLikelihood :=
      if profile.preferredCategories.contains article.category then baseLikelihood + 10
      else baseLikelihood
    let titleLower := pyLower article.title
    let keywordBoost : ℤ :=
      2 * profile.keywordPreferences.countP
            (fun p => strContains titleLower (pyLower p.1))
    let baseLikelihood := baseLikelihood + ((min keywordBoost 10 : ℤ) : ℚ)
    some (max 0 (min 100 (pyInt baseLikelihood)))

/-- Literal reading of claim C9's keyword-extraction sentence: the kept and
stripped tokens of the *unlowered* title (the claim does not mention the
`text.lower()` step the source performs first). -/
def extractKeywordsClaimLiteral (text : String) : List String :=
  ((pySplitWs text).filter
      (fun w => decide (4 < (pyStrip w).length) && !(stopwords.contains w))).map
    pyStrip

/-! ## Concrete inputs used by witnesses and counterexamples -/

/-- A headline-classified article with the given title (witness/counterexample
building block). -/
def hlArt (t : String) : Article :=
  { title := t, url := "u", source := "src", published := none, summary := "",
    sectionLabel := "headline" }

/-- A grain-classified article with the given title. -/
def grainArt (t : String) : Article :=
  { title := t, url := "u", source := "src", published := none, summary := "",
    sectionLabel := "grain_quality" }

/-- The candidate pool for the C1 counterexample: a Canadian-government story
that is also a governance story, a second governance story, three further
governance stories and five non-governance stories, all classified as
headlines. -/
def poolC1 : List Article :=
  [hlArt "canadian government regulation update",
   hlArt "new ai safety law",
   hlArt "eu policy update",
   hlArt "oversight board report",
   hlArt "ai transparency push",
   hlArt "new gpu chips",
   hlArt "robots win chess",
   hlArt "vision models improve",
   hlArt "speech systems upgrade",
   hlArt "drones deliver pizza"]

/-- First C2 counterexample configuration: one headline slot, one grain slot. -/
def cfgC2a : SelectorConfig := { targetHeadlines := 1, targetGrainQuality := 1 }

/-- First C2 counterexample pool: two mandatory-pick headline stories and two
grain stories. -/
def poolC2a : List Article :=
  [hlArt "canadian government regulation update", hlArt "new ai safety law",
   grainArt "grain news one", grainArt "grain news two"]

/-- Second C2 counterexample configuration: `governance_ratio = 1.0`. -/
def cfgC2b : SelectorConfig := { targetHeadlines := 2, governanceRatio := mkRat 1 1 }

/-- Second C2 counterexample pool: a non-governance Canadian-government story,
two governance stories and three non-governance stories. -/
def poolC2b : List Article :=
  [hlArt "statscan data release", hlArt "new ai safety rules",
   hlArt "ai policy brief", hlArt "robots win chess", hlArt "new gpu chips",
   hlArt "drones deliver pizza"]

/-- C3 counterexample article: a Canadian-government story classified into
the tool section. -/
def toolCanadianArt : Article :=
  { title := "canadian government ai plan", url := "u", source := "src",
    published := none, summary := "", sectionLabel := "tool" }

/-- C4 profile: one historical selection with score threshold 1 and
historical score range (1, 6). -/
def profileC4 : PreferenceProfile :=
  { totalSelections := 1, scoreThreshold := 1, scoreRange := (1, 6) }

/-- C4 profile on the division-by-zero path: every historical selected score
was exactly 10. -/
def profileC4zero : PreferenceProfile :=
  { totalSelections := 1, scoreThreshold := 10, scoreRange := (10, 10) }

/-- A plain article record for the personalization functions. -/
def artC4 : PArticle := { source := "s", category := "c", title := "t", score := 5 }

/-- Review-file content used by personalization witnesses: two available
articles, one selected. -/
def rdSample : ReviewData :=
  { categoriesCounts := [("ai", 2)],
    selected := [{ source := "Source A", category := "ai",
                   title := "Machine Intelligence Rising", score := some 5 }] }

/-- C5 counterexample cache: one recorded file, zeroed aggregate. -/
def cacheC5 : CacheData :=
  { processedFiles := ["review_2024-12-31.json"], stats := initialStats }

/-- C5 witness disk: a single parseable review file. -/
def diskC5 : List (String × Option ReviewData) := [("review_2025-01-01.json", some rdSample)]

/-- C7 counterexample configuration: a negative Canadian boost (nothing in
the source or the config loader restricts its sign). -/
def cfgC7 : ScorerConfig := { canadianKeywords := ["canada"], canadianBoost := mkRat (-1) 1 }

/-- C7 counterexample article: matches one Canadian keyword, no timestamp,
unrecognized priority. -/
def artC7 : Article :=
  { title := "canada ai", url := "u", source := "src", published := none,
    summary := "", priority := "medium" }

/-- C10 witness profile: a source preference of 1.5, a category preference of
2.0 and one keyword of frequency 3. -/
def profileC10 : PreferenceProfile :=
  { sourcePreferences := [("feedx", mkRat 3 2)],
    categoryPreferences := [("ai", mkRat 2 1)],
    keywordPreferences := [("intelligence", 3)],
    totalSelections := 2 }

/-- C10 witness article. -/
def artC10 : PArticle :=
  { source := "feedx", category := "ai", title := "Machine Intelligence Rising",
    score := mkRat 4 1 }

/-! ## Supporting lemmas about the Python primitives -/

theorem ratFloor_eq_floor (q : ℚ) : Rat.floor q = ⌊q⌋ := by
  rw [Rat.floor_def', ← Rat.floor_def]

theorem pyInt_eq_floor {q : ℚ} (h : 0 ≤ q) : pyInt q = ⌊q⌋ := by
  unfold pyInt
  rw [Int.tdiv_eq_ediv (Rat.num_nonneg.2 h) (by positivity), ← Rat.floor_def]

theorem pyInt_nonpos {q : ℚ} (h : q ≤ 0) : pyInt q ≤ 0 := by
  unfold pyInt
  have hn : 0 ≤ -q.num := by
    have := Rat.num_nonpos.2 h
    omega
  have h1 : 0 ≤ (-q.num).tdiv q.den := Int.tdiv_nonneg hn (by positivity)
  have h2 : (-q.num).tdiv q.den = -(q.num.tdiv q.den) := Int.neg_tdiv _ _
  omega

theorem pyInt_lt_of_lt {q : ℚ} {t : ℤ} (ht : 0 < t) (h : q < (t : ℚ)) :
    pyInt q < t := by
  rcases le_or_lt 0 q with hq | hq
  · rw [pyInt_eq_floor hq]
    exact Int.floor_lt.2 h
  · have := pyInt_nonpos hq.le
    omega

theorem mkRat_half : (mkRat 1 2 : ℚ) = 1 / 2 := by
  rw [Rat.mkRat_eq_div]
  norm_num

theorem floor_le_rhe (y : ℚ) : ⌊y⌋ ≤ rhe y := by
  unfold rhe
  rw [ratFloor_eq_floor]
  dsimp only
  split_ifs <;> omega

theorem rhe_le_floor_add_one (y : ℚ) : rhe y ≤ ⌊y⌋ + 1 := by
  unfold rhe
  rw [ratFloor_eq_floor]
  dsimp only
  split_ifs <;> omega

theorem rhe_mono {x y : ℚ} (h : x ≤ y) : rhe x ≤ rhe y := by
  rcases lt_or_le ⌊x⌋ ⌊y⌋ with hf | hf
  · calc rhe x ≤ ⌊x⌋ + 1 := rhe_le_floor_add_one x
    _ ≤ ⌊y⌋ := by omega
    _ ≤ rhe y := floor_le_rhe y
  · have hfe : ⌊x⌋ = ⌊y⌋ := le_antisymm (Int.floor_le_floor h) hf
    unfold rhe
    rw [ratFloor_eq_floor, ratFloor_eq_floor, ← hfe, mkRat_half]
    dsimp only
    have hd : x - (⌊x⌋ : ℚ) ≤ y - (⌊x⌋ : ℚ) := by linarith
    split_ifs <;> first | omega | linarith

theorem pyRound2_mono {x y : ℚ} (h : x ≤ y) : pyRound2 x ≤ pyRound2 y := by
  unfold pyRound2
  rw [Rat.mkRat_eq_div, Rat.mkRat_eq_div]
  have h1 : rhe (x * 100) ≤ rhe (y * 100) :=
    rhe_mono (by nlinarith)
  have h2 : ((rhe (x * 100) : ℚ)) ≤ ((rhe (y * 100) : ℚ)) := by exact_mod_cast h1
  have h100 : (0 : ℚ) ≤ ((100 : ℕ) : ℚ) := by norm_num
  exact div_le_div_of_nonneg_right h2 h100

theorem pyTake_of_nonneg {n : ℤ} (h : 0 ≤ n) (l : List α) :
    pyTake n l = l.take n.toNat := by
  simp [pyTake, h]

theorem length_pyTake_le_toNat {n : ℤ} (h : 0 ≤ n) (l : List α) :
    (pyTake n l).length ≤ n.toNat := by
  rw [pyTake_of_nonneg h]
  simp [List.length_take]

/-! ## Claim C3: the Canadian-government guarantee -/

unseal Rat.mul in
/-- Claim C3, original reading, refuted: the guaranteed Canadian-government
pick only scans the headline-classified pool, so a pool whose only
region-flagged-government item is classified into another section yields a
lead-story list with no such item (here: an empty one). -/
theorem c3_canadian_guarantee_counterexample :
    isCanadianGovernmentStory toolCanadianArt = true ∧
      toolCanadianArt ∈ [toolCanadianArt] ∧
      (autoSelectArticles [toolCanadianArt] {}).headlines = [] ∧
      (autoSelectArticles [toolCanadianArt] {}).tools = [toolCanadianArt] := by
  refine ⟨by decide, by decide, by decide, by decide⟩

/-- Claim C3, amended: for every pool whose *headline-classified* candidates
contain at least one Canadian-government story, the returned headline
selection contains such a story (and `auto_select_articles` is total, so
selection always "returns normally"; the missing-story warning is a log line
with no effect on the returned value). -/
theorem c3_canadian_guarantee (pool : List Article) (cfg : SelectorConfig)
    (h : ∃ a ∈ headlinePool pool, isCanadianGovernmentStory a = true) :
    ∃ a ∈ (autoSelectArticles pool cfg).headlines,
      isCanadianGovernmentStory a = true := by
  obtain ⟨a, ha, hgov⟩ := h
  have hmem : a ∈ (headlinePool pool).filter (fun x => isCanadianGovernmentStory x) :=
    List.mem_filter.2 ⟨ha, hgov⟩
  obtain ⟨b, l', hFe⟩ : ∃ b l',
      (headlinePool pool).filter (fun x => isCanadianGovernmentStory x) = b :: l' := by
    cases hF2 : (headlinePool pool).filter (fun x => isCanadianGovernmentStory x) with
    | nil => rw [hF2] at hmem; cases hmem
    | cons b l' => exact ⟨b, l', rfl⟩
  have hb : b ∈ (headlinePool pool).filter (fun x => isCanadianGovernmentStory x) := by
    rw [hFe]; exact List.mem_cons_self b l'
  refine ⟨b, ?_, (List.mem_filter.1 hb).2⟩
  have hpick : canadianPick pool = [b] := by
    unfold canadianPick
    rw [hFe]
    rfl
  show b ∈ mandatoryPicks pool ++ governanceFill pool cfg ++ otherFill pool cfg
  apply List.mem_append_left
  apply List.mem_append_left
  unfold mandatoryPicks
  apply List.mem_append_left
  rw [hpick]
  exact List.mem_cons_self b []

/-- Witness for C3 at a concrete one-article pool. -/
theorem c3_canadian_guarantee_witness :
    ∃ a ∈ (autoSelectArticles [hlArt "parliament reviews ai"] {}).headlines,
      isCanadianGovernmentStory a = true :=
  c3_canadian_guarantee [hlArt "parliament reviews ai"] {}
    ⟨hlArt "parliament reviews ai", by decide, by decide⟩

/-! ## Claim C8: totality and rule order of the section classifier -/

/-- Claim C8: `classify_article_section` is total with values in the fixed
five-label set; the ordered rules (domain-vertical grain keywords, tool,
research/long-form, positive sentiment) are tried in exactly that order with
the first match short-circuiting the rest, and an article matching none of
them gets the default `headline` label.  The sentiment oracle's output
(whatever string any error fallback produced) is consulted only when the API
is requested and available. -/
theorem c8_classifier_total (a : Article) (useApi gem : Bool)
    (oracle : Article → String) :
    (classifyArticleSection a useApi gem oracle = "grain_quality" ∨
      classifyArticleSection a useApi gem oracle = "tool" ∨
      classifyArticleSection a useApi gem oracle = "deep_dive" ∨
      classifyArticleSection a useApi gem oracle = "bright_spot" ∨
      classifyArticleSection a useApi gem oracle = "headline") ∧
    (hasGrainKeywords a = true →
      classifyArticleSection a useApi gem oracle = "grain_quality") ∧
    (hasGrainKeywords a = false →
      (a.category = "tools" ∨ hasToolKeywords a.title a.summary = true) →
      classifyArticleSection a useApi gem oracle = "tool") ∧
    (hasGrainKeywords a = false →
      ¬(a.category = "tools" ∨ hasToolKeywords a.title a.summary = true) →
      (isResearchPaper a = true ∨ isLongForm a = true) →
      classifyArticleSection a useApi gem oracle = "deep_dive") ∧
    (hasGrainKeywords a = false →
      ¬(a.category = "tools" ∨ hasToolKeywords a.title a.summary = true) →
      ¬(isResearchPaper a = true ∨ isLongForm a = true) →
      (if useApi && gem then oracle a == "positive"
        else hasPositiveSentimentKeywords a.title a.summary) = true →
      classifyArticleSection a useApi gem oracle = "bright_spot") ∧
    (hasGrainKeywords a = false →
      ¬(a.category = "tools" ∨ hasToolKeywords a.title a.summary = true) →
      ¬(isResearchPaper a = true ∨ isLongForm a = true) →
      (if useApi && gem then oracle a == "positive"
        else hasPositiveSentimentKeywords a.title a.summary) = false →
      classifyArticleSection a useApi gem oracle = "headline") := by
  unfold classifyArticleSection
  split_ifs with h1 h2 h3 h4 <;> (simp_all; try tauto)

/-- Witness for C8: a farming article takes the first (grain) rule. -/
theorem c8_classifier_total_witness :
    classifyArticleSection (hlArt "ai in farming") true true (fun _ => "neutral")
      = "grain_quality" :=
  (c8_classifier_total (hlArt "ai in farming") true true (fun _ => "neutral")).2.1
    (by decide)

/-! ## Claim C9: keyword extraction and the top-20 cut -/

theorem pyLowerChar_toNat_ofNat {c : Char} (h1 : 65 ≤ c.toNat) (h2 : c.toNat ≤ 90) :
    (Char.ofNat (c.toNat + 32)).toNat = c.toNat + 32 := by
  generalize hgen : c.toNat = n at *
  interval_cases n <;> decide

theorem pyLowerChar_idem (c : Char) : pyLowerChar (pyLowerChar c) = pyLowerChar c := by
  unfold pyLowerChar
  by_cases h : 65 ≤ c.toNat ∧ c.toNat ≤ 90
  · rw [if_pos h, if_neg]
    rw [pyLowerChar_toNat_ofNat h.1 h.2]
    omega
  · rw [if_neg h, if_neg h]

/-- Every character of every token returned by `splitWsAux` comes from the
input or from the accumulator. -/
theorem splitWsAux_chars (l acc : List Char) :
    ∀ tok ∈ splitWsAux l acc, ∀ c ∈ tok.data, c ∈ l ∨ c ∈ acc := by
  induction l generalizing acc with
  | nil =>
    intro tok htok c hc
    unfold splitWsAux at htok
    split_ifs at htok with hacc
    · cases htok
    · rw [List.mem_singleton] at htok
      subst htok
      right
      simpa using hc
  | cons x xs ih =>
    intro tok htok c hc
    unfold splitWsAux at htok
    split_ifs at htok with hws hacc
    · rcases ih [] tok htok c hc with h | h
      · exact Or.inl (List.mem_cons_of_mem x h)
      · cases h
    · rcases List.mem_cons.1 htok with h | h
      · subst h
        right
        simpa using hc
      · rcases ih [] tok h c hc with h' | h'
        · exact Or.inl (List.mem_cons_of_mem x h')
        · cases h'
    · rcases ih (x :: acc) tok htok c hc with h | h
      · exact Or.inl (List.mem_cons_of_mem x h)
      · rcases List.mem_cons.1 h with h' | h'
        · exact Or.inl (h' ▸ List.mem_cons_self x xs)
        · exact Or.inr h'

/-- Tokens produced by splitting an already-lowered string are fixed by
lowering. -/
theorem pyLower_token_fixed {s : String} {w : String}
    (hw : w ∈ pySplitWs (pyLower s)) : pyLower w = w := by
  have hchars : ∀ c ∈ w.data, c ∈ (pyLower s).data := by
    intro c hc
    rcases splitWsAux_chars (pyLower s).data [] w hw c hc with h | h
    · exact h
    · cases h
  have hfix : ∀ c ∈ w.data, pyLowerChar c = c := by
    intro c hc
    have : c ∈ s.data.map pyLowerChar := hchars c hc
    obtain ⟨d, _, hd⟩ := List.mem_map.1 this
    rw [← hd]
    exact pyLowerChar_idem d
  show (⟨w.data.map pyLowerChar⟩ : String) = w
  rw [List.map_congr_left hfix]
  simp

/-- Claim C9, original reading, refuted: the extracted keywords are the
tokens of the *lowered* title, not of the title itself, so a title with an
upper-case letter yields keywords that differ from its stripped tokens. -/
theorem c9_keyword_extraction_counterexample :
    extractKeywords "Quantum Supremacy Update" = ["quantum", "supremacy", "update"] ∧
      extractKeywordsClaimLiteral "Quantum Supremacy Update"
        = ["Quantum", "Supremacy", "Update"] ∧
      extractKeywords "Quantum Supremacy Update"
        ≠ extractKeywordsClaimLiteral "Quantum Supremacy Update" := by
  refine ⟨by decide, by decide, by decide⟩

/-- Claim C9, amended: for every title, the keywords added to the frequency
table are exactly the whitespace tokens *of the lowercased title* whose
length after stripping surrounding punctuation exceeds 4 characters and that
are not in the stop-word list, with surrounding punctuation stripped; and
only the 20 most frequent keywords survive into the profile's
`keyword_preferences` table. -/
theorem c9_keyword_extraction (text : String) (stats : Stats) :
    extractKeywords text
      = ((pySplitWs (pyLower text)).filter
          (fun w => decide (4 < (pyStrip w).length) && !(stopwords.contains w))).map
        pyStrip ∧
    (buildProfileFromStats stats).keywordPreferences
      = counterMostCommon 20 stats.allKeywords ∧
    (buildProfileFromStats stats).keywordPreferences.length ≤ 20 := by
  refine ⟨?_, rfl, ?_⟩
  · unfold extractKeywords
    congr 1
    apply List.filter_congr
    intro w hw
    rw [pyLower_token_fixed hw]
  · show (counterMostCommon 20 stats.allKeywords).length ≤ 20
    unfold counterMostCommon
    simp [List.length_take]

/-- Witness for C9 (the conjunction is universally quantified over titles
and stats; evaluated at a concrete title and the empty aggregate). -/
theorem c9_keyword_extraction_witness :
    extractKeywords "Canadian Ministers Debate Artificial Intelligence"
      = ["canadian", "ministers", "debate", "artificial", "intelligence"] ∧
      (buildProfileFromStats initialStats).keywordPreferences = [] := by
  refine ⟨by decide, ?_⟩
  rw [(c9_keyword_extraction "" initialStats).2.1]
  decide

/-! ## Claim C4: selection-likelihood prediction -/

unseal Rat.mul Rat.add Rat.sub Rat.inv in
/-- Claim C4, original reading, refuted: with historical data present the
normalized-score term is *not* scaled against the historical min/max — the
historical maximum (6 here) is ignored and a fixed ceiling of 10.0 is used
instead (code result 35, min/max-scaled result 64); moreover when every
historical selected score was exactly 10 the normalization divides by zero
and the call raises instead of returning a value in [0,100]. -/
theorem c4_likelihood_counterexample :
    predictSelectionLikelihood artC4 profileC4 = some 35 ∧
      predictSelectionLikelihoodSpecMinMax artC4 profileC4 = some 64 ∧
      predictSelectionLikelihood artC4 profileC4
        ≠ predictSelectionLikelihoodSpecMinMax artC4 profileC4 ∧
      predictSelectionLikelihood artC4 profileC4zero = none := by
  refine ⟨by decide, by decide, by decide, by decide⟩

/-- Claim C4, amended: with zero historical selections the prediction is
exactly 50 for every article; otherwise, provided the historical minimum
selected score is not exactly 10 (where the source raises
`ZeroDivisionError`), it returns a value in [0,100] obtained from a
normalized-score term scaled from the historical minimum against the fixed
ceiling 10.0 plus the fixed source/category/keyword bonuses; the historical
maximum (`score_range`'s second component) never influences the result. -/
theorem c4_likelihood (article : PArticle) (profile : PreferenceProfile) :
    (profile.totalSelections = 0 →
      predictSelectionLikelihood article profile = some 50) ∧
    (profile.totalSelections ≠ 0 → profile.scoreThreshold ≠ 10 →
      ∃ v, predictSelectionLikelihood article profile = some v ∧
        0 ≤ v ∧ v ≤ 100) ∧
    (∀ m, predictSelectionLikelihood article
        { profile with scoreRange := (profile.scoreRange.1, m) }
      = predictSelectionLikelihood article profile) := by
  refine ⟨?_, ?_, ?_⟩
  · intro h
    unfold predictSelectionLikelihood
    rw [if_pos h]
  · intro h hthr
    have hcrash : ¬(0 < profile.scoreThreshold ∧ (10 : ℚ) - profile.scoreThreshold = 0) := by
      rintro ⟨_, heq⟩
      exact hthr (by linarith)
    unfold predictSelectionLikelihood
    rw [if_neg h, if_neg hcrash]
    refine ⟨_, rfl, le_max_left _ _, max_le (by norm_num) (min_le_left _ _)⟩
  · intro m
    rfl

/-- Witness for C4 at a concrete article and profile with historical data. -/
theorem c4_likelihood_witness :
    ∃ v, predictSelectionLikelihood artC4 profileC4 = some v ∧ 0 ≤ v ∧ v ≤ 100 :=
  (c4_likelihood artC4 profileC4).2.1 (by decide) (by decide)

/-! ## Claim C10: personalization boosts are additive-only -/

theorem mem_of_lookup_eq_some {l : List (String × ℚ)} {k : String} {m : ℚ}
    (h : l.lookup k = some m) : (k, m) ∈ l := by
  obtain ⟨l₁, l₂, rfl, -⟩ := List.lookup_eq_some_iff.1 h
  simp

unseal Rat.mul Rat.add Rat.sub in
/-- Claim C10, original reading, refuted: the final two-decimal rounding can
dip below the original score, so the boosted score is not always ≥ the
original: with an empty profile (which satisfies every multiplier/frequency
hypothesis vacuously) and original score 0.005, the result is 0.0. -/
theorem c10_boost_counterexample :
    boostArticleScore { artC4 with score := mkRat 1 200 } {} = 0 ∧
      (0 : ℚ) < mkRat 1 200 := by
  refine ⟨by decide, by decide⟩

/-- Claim C10, amended: for every article with non-negative original score
and every profile whose boost multipliers are all ≥ 1 and whose keyword
frequencies are all ≥ 0 (as the learner produces), the boosted score is at
least the *two-decimal rounding* of the original score — the boost itself is
non-negative and only the final `round(…, 2)` can shave up to half a cent —
and with an empty profile the result is exactly the rounded original
score. -/
theorem c10_boost_additive (article : PArticle) (profile : PreferenceProfile)
    (hs : ∀ p ∈ profile.sourcePreferences, 1 ≤ p.2)
    (hc : ∀ p ∈ profile.categoryPreferences, 1 ≤ p.2)
    (hk : ∀ p ∈ profile.keywordPreferences, 0 ≤ p.2)
    (ha : 0 ≤ article.score) :
    pyRound2 article.score ≤ boostArticleScore article profile ∧
    (profile.sourcePreferences = [] → profile.categoryPreferences = [] →
      profile.keywordPreferences = [] →
      boostArticleScore article profile = pyRound2 article.score) := by
  have hsb : 0 ≤ (match profile.sourcePreferences.lookup article.source with
      | some m => (m - 1) * article.score
      | none => (0 : ℚ)) := by
    cases hl : profile.sourcePreferences.lookup article.source with
    | none => exact le_refl 0
    | some m =>
      have hm : (1 : ℚ) ≤ m := hs _ (mem_of_lookup_eq_some hl)
      exact mul_nonneg (by linarith) ha
  have hcb : 0 ≤ (match profile.categoryPreferences.lookup article.category with
      | some m => (m - 1) * article.score
      | none => (0 : ℚ)) := by
    cases hl : profile.categoryPreferences.lookup article.category with
    | none => exact le_refl 0
    | some m =>
      have hm : (1 : ℚ) ≤ m := hc _ (mem_of_lookup_eq_some hl)
      exact mul_nonneg (by linarith) ha
  have hkb : 0 ≤ (profile.keywordPreferences.map
      (fun p => if strContains (pyLower article.title) (pyLower p.1) then
          (p.2 : ℚ) * mkRat 1 10 else 0)).sum := by
    apply List.sum_nonneg
    intro x hx
    obtain ⟨p, hp, rfl⟩ := List.mem_map.1 hx
    split_ifs
    · have h1 : (0 : ℚ) ≤ (p.2 : ℚ) := by exact_mod_cast hk p hp
      have h2 : (0 : ℚ) ≤ mkRat 1 10 := by
        rw [Rat.mkRat_eq_div]
        norm_num
      exact mul_nonneg h1 h2
    · exact le_refl 0
  constructor
  · unfold boostArticleScore
    apply pyRound2_mono
    linarith
  · intro e1 e2 e3
    unfold boostArticleScore
    rw [e1, e2, e3]
    simp

/-- Witness for C10 at a concrete article and nonempty profile. -/
theorem c10_boost_additive_witness :
    pyRound2 artC10.score ≤ boostArticleScore artC10 profileC10 ∧
      (profileC10.sourcePreferences = [] → profileC10.categoryPreferences = [] →
        profileC10.keywordPreferences = [] →
        boostArticleScore artC10 profileC10 = pyRound2 artC10.score) :=
  c10_boost_additive artC10 profileC10 (by decide) (by decide) (by decide) (by decide)

/-! ## Claim C7: the score floor -/

theorem recency_ge (p : Option ℤ) : mkRat 2 10 ≤ calculateRecencyScore p := by
  unfold calculateRecencyScore
  rcases p with - | d
  · rw [Rat.mkRat_eq_div, Rat.mkRat_eq_div]
    norm_num
  · dsimp only
    split_ifs <;> simp [Rat.mkRat_eq_div] <;> norm_num

theorem priority_ge (s : String) : mkRat 1 2 ≤ calculatePriorityScore s := by
  unfold calculatePriorityScore
  split_ifs <;> simp [Rat.mkRat_eq_div] <;> norm_num

theorem canadian_ge {kws : List String} {boost : ℚ} (hb : 1 ≤ boost)
    (text : String) : 1 ≤ calculateCanadianScore kws boost text := by
  unfold calculateCanadianScore
  dsimp only
  split_ifs with h
  · have h1 : (1 : ℚ) ≤ ((min (kws.countP fun kw => strContains text (pyLower kw)) 3 : ℕ) : ℚ) := by
      have : 1 ≤ min (kws.countP fun kw => strContains text (pyLower kw)) 3 := by omega
      exact_mod_cast this
    nlinarith
  · exact le_refl 1

unseal Rat.mul Rat.sub in
theorem pyRound2_tenth : pyRound2 (mkRat 1 10) = mkRat 1 10 := by decide

unseal Rat.mul Rat.add Rat.sub in
/-- Claim C7, original reading, refuted: nothing constrains the configured
region (Canadian) boost, and a keyword-matching article scored under a
negative boost receives a negative final score in the output (here −0.5),
violating both the 1.0 × 0.2 × 0.5 floor and non-negativity. -/
theorem c7_score_floor_counterexample :
    (scoreArticles [artC7] cfgC7).map (fun a => a.score) = [mkRat (-1) 2] ∧
      mkRat (-1) 2 < 0 ∧ mkRat (-1) 2 < mkRat 1 10 := by
  refine ⟨by decide, by decide, by decide⟩

theorem final_score_ge (cfg : ScorerConfig) (hb : 1 ≤ cfg.canadianBoost)
    (b : Article) :
    mkRat 1 10 ≤ pyRound2
      (max (calculateTopicScoreFast (articleTextLower b) cfg.topics).1 1 *
        calculateCanadianScore cfg.canadianKeywords cfg.canadianBoost (articleTextLower b) *
        calculateRecencyScore b.published * calculatePriorityScore b.priority) := by
  rw [← pyRound2_tenth]
  apply pyRound2_mono
  have h1 : (1 : ℚ) ≤ max (calculateTopicScoreFast (articleTextLower b) cfg.topics).1 1 :=
    le_max_right _ _
  have h2 : (1 : ℚ) ≤ calculateCanadianScore cfg.canadianKeywords cfg.canadianBoost
      (articleTextLower b) := canadian_ge hb _
  have h3 := recency_ge b.published
  have h4 := priority_ge b.priority
  have h3' : (0 : ℚ) < mkRat 2 10 := by rw [Rat.mkRat_eq_div]; norm_num
  have h4' : (0 : ℚ) < mkRat 1 2 := by rw [Rat.mkRat_eq_div]; norm_num
  have hbc : (1 : ℚ) ≤ max (calculateTopicScoreFast (articleTextLower b) cfg.topics).1 1 *
      calculateCanadianScore cfg.canadianKeywords cfg.canadianBoost (articleTextLower b) :=
    one_le_mul_of_one_le_of_one_le h1 h2
  have hstep1 : 1 * mkRat 2 10 ≤
      (max (calculateTopicScoreFast (articleTextLower b) cfg.topics).1 1 *
        calculateCanadianScore cfg.canadianKeywords cfg.canadianBoost (articleTextLower b)) *
        calculateRecencyScore b.published :=
    mul_le_mul hbc h3 h3'.le (by linarith)
  have hstep2 : (1 * mkRat 2 10) * mkRat 1 2 ≤
      (max (calculateTopicScoreFast (articleTextLower b) cfg.topics).1 1 *
        calculateCanadianScore cfg.canadianKeywords cfg.canadianBoost (articleTextLower b) *
        calculateRecencyScore b.published) * calculatePriorityScore b.priority :=
    mul_le_mul hstep1 h4 h4'.le (by nlinarith)
  calc mkRat 1 10 = (1 * mkRat 2 10) * mkRat 1 2 := by
        rw [Rat.mkRat_eq_div, Rat.mkRat_eq_div, Rat.mkRat_eq_div]
        norm_num
  _ ≤ _ := hstep2

/-- Claim C7, amended: provided the configured region boost multiplier is at
least 1 (which the spec's data model assumes of the region-boost
multiplier), every article in the scored output has score at least the base
floor (1.0) times the minimum recency multiplier (0.2) times the minimum
priority multiplier (0.5) = 0.1; in particular no scored article has a
negative score. -/
theorem c7_score_floor (articles : List Article) (cfg : ScorerConfig)
    (hb : 1 ≤ cfg.canadianBoost) :
    ∀ a ∈ scoreArticles articles cfg, mkRat 1 10 ≤ a.score := by
  intro a ha
  unfold scoreArticles at ha
  have ha2 : a ∈ articles.filterMap (scoreOneArticle cfg) :=
    (List.perm_insertionSort _ _).mem_iff.1 ha
  obtain ⟨b, hb2, hsome⟩ := List.mem_filterMap.1 ha2
  unfold scoreOneArticle at hsome
  dsimp only at hsome
  by_cases hexcl : shouldExclude cfg.excludePatterns (articleTextLower b) = true
  · rw [if_pos hexcl] at hsome
    cases hsome
  · rw [if_neg hexcl] at hsome
    have hfields := Option.some.inj hsome
    rw [← hfields]
    exact final_score_ge cfg hb b

unseal Rat.mul Rat.add Rat.sub in
/-- Witness for C7: a Canadian article scored under boost 1.5 lands at 0.75,
above the 0.1 floor. -/
theorem c7_score_floor_witness :
    mkRat 1 10 ≤ ({ artC7 with score := mkRat 75 100 } : Article).score :=
  c7_score_floor [artC7]
    { canadianKeywords := ["canada"], canadianBoost := mkRat 3 2 }
    (by decide) { artC7 with score := mkRat 75 100 } (by decide)

/-! ## Claim C1: the governance ratio in the headline fill step -/

theorem canadianPick_length_le (pool : List Article) :
    (canadianPick pool).length ≤ 1 := by
  unfold canadianPick
  simp [List.length_take]

theorem governancePick_isGov {pool : List Article} {a : Article}
    (h : governancePick pool = some a) : isGovernanceStory a = true := by
  unfold governancePick at h
  have hmem := List.mem_of_find?_eq_some h
  exact (List.mem_filter.1 hmem).2

theorem mandatoryPicks_length_le (pool : List Article) :
    (mandatoryPicks pool).length ≤ 2 := by
  unfold mandatoryPicks
  rw [List.length_append]
  have h1 := canadianPick_length_le pool
  have h2 : (governancePick pool).toList.length ≤ 1 := by
    cases governancePick pool <;> simp
  omega

theorem mandatoryPicks_length_le_currentGov (pool : List Article) :
    (mandatoryPicks pool).length ≤ currentGovernance pool + 1 := by
  unfold currentGovernance mandatoryPicks
  rw [List.countP_append, List.length_append]
  have h1 := canadianPick_length_le pool
  have h2 : (governancePick pool).toList.countP (fun a => isGovernanceStory a)
      = (governancePick pool).toList.length := by
    cases hg : governancePick pool with
    | none => rfl
    | some a => simp [governancePick_isGov hg]
  omega

theorem mem_governanceArticles {pool : List Article} {a : Article}
    (h : a ∈ governanceArticles pool) : isGovernanceStory a = true :=
  (List.mem_filter.1 h).2

theorem mem_otherArticles {pool : List Article} {a : Article}
    (h : a ∈ otherArticles pool) : isGovernanceStory a = false := by
  unfold otherArticles at h
  have h1 := (List.mem_filter.1 h).1
  have h2 := (List.mem_filter.1 h).2
  by_contra hcon
  have hgov : isGovernanceStory a = true := by
    cases hval : isGovernanceStory a
    · exact absurd hval hcon
    · rfl
  have : a ∈ governanceArticles pool :=
    List.mem_filter.2 ⟨h1, hgov⟩
  simp [this] at h2

theorem targetGovernance_le {cfg : SelectorConfig} (h2 : 2 ≤ cfg.targetHeadlines)
    (hr : cfg.governanceRatio < 1) :
    targetGovernance cfg ≤ (cfg.targetHeadlines : ℤ) - 1 := by
  unfold targetGovernance
  have htpos : (0 : ℤ) < (cfg.targetHeadlines : ℤ) := by exact_mod_cast by omega
  have hlt : (cfg.targetHeadlines : ℚ) * cfg.governanceRatio < (cfg.targetHeadlines : ℤ) := by
    push_cast
    nlinarith [show (0 : ℚ) < (cfg.targetHeadlines : ℚ) from by exact_mod_cast htpos]
  have := pyInt_lt_of_lt htpos hlt
  omega

theorem neededOther_nonneg (pool : List Article) {cfg : SelectorConfig}
    (h2 : 2 ≤ cfg.targetHeadlines) (hr : cfg.governanceRatio < 1) :
    0 ≤ neededOther pool cfg := by
  have hmand := mandatoryPicks_length_le pool
  have hnon := mandatoryPicks_length_le_currentGov pool
  have htg := targetGovernance_le h2 hr
  unfold neededOther neededGovernance neededSlots
  rcases max_choice 0 (targetGovernance cfg - (currentGovernance pool : ℤ)) with h | h <;>
    rw [h] <;> omega

unseal Rat.mul Rat.sub in
/-- Claim C1, original reading, refuted: on a pool whose Canadian-government
mandatory pick is itself a governance story, the fill step adds 2 governance
items while the ratio applied to the remaining capacity after the two
mandatory picks prescribes ⌊0.6 × 6⌋ = 3 — the source applies the ratio to
the *total* target count and subtracts the governance stories already
picked.  The pool has enough items of each kind (3 governance and 5
non-governance candidates remain after the mandatory picks). -/
theorem c1_governance_ratio_counterexample :
    (governanceFill poolC1 {} ++ otherFill poolC1 {}).countP
        (fun a => isGovernanceStory a) = 2 ∧
      pyInt (({} : SelectorConfig).governanceRatio * ((neededSlots poolC1 {} : ℤ) : ℚ)) = 3 ∧
      (2 : ℕ) ≠ 3 ∧
      3 ≤ (governanceArticles poolC1).length ∧
      3 ≤ (otherArticles poolC1).length := by
  refine ⟨by decide, by decide, by decide, by decide, by decide⟩

/-- Claim C1, amended: after the mandatory picks, the fill step adds exactly
`max(0, int(target_headlines * governance_ratio) - current_governance)`
governance items — the ratio is applied to the *total* headline target and
then reduced by the governance stories already among the mandatory picks,
not applied to the remaining capacity — and fills the rest of the slots with
non-governance items, reaching the target exactly when the pool has enough
items of each kind (stated by the two `≤ length` hypotheses). -/
theorem c1_governance_ratio (pool : List Article) (cfg : SelectorConfig)
    (h2 : 2 ≤ cfg.targetHeadlines) (hr : cfg.governanceRatio < 1)
    (hg : (neededGovernance pool cfg).toNat ≤ (governanceArticles pool).length)
    (ho : (neededOther pool cfg).toNat ≤ (otherArticles pool).length) :
    (autoSelectArticles pool cfg).headlines.countP (fun a => isGovernanceStory a)
      = currentGovernance pool + (neededGovernance pool cfg).toNat ∧
    (autoSelectArticles pool cfg).headlines.length = cfg.targetHeadlines := by
  have hg0 : 0 ≤ neededGovernance pool cfg := le_max_left _ _
  have hno := neededOther_nonneg pool h2 hr
  have hgovfill : governanceFill pool cfg
      = (governanceArticles pool).take (neededGovernance pool cfg).toNat :=
    pyTake_of_nonneg hg0 _
  have hotherfill : otherFill pool cfg
      = (otherArticles pool).take (neededOther pool cfg).toNat :=
    pyTake_of_nonneg hno _
  have hgl : (governanceFill pool cfg).length = (neededGovernance pool cfg).toNat := by
    rw [hgovfill, List.length_take]
    omega
  have hol : (otherFill pool cfg).length = (neededOther pool cfg).toNat := by
    rw [hotherfill, List.length_take]
    omega
  have hgc : (governanceFill pool cfg).countP (fun a => isGovernanceStory a)
      = (governanceFill pool cfg).length := by
    rw [List.countP_eq_length]
    intro a ha
    rw [hgovfill] at ha
    exact mem_governanceArticles (List.mem_of_mem_take ha)
  have hoc : (otherFill pool cfg).countP (fun a => isGovernanceStory a) = 0 := by
    rw [List.countP_eq_zero]
    intro a ha
    rw [hotherfill] at ha
    simp [mem_otherArticles (List.mem_of_mem_take ha)]
  have hsum : neededGovernance pool cfg + neededOther pool cfg
      = (cfg.targetHeadlines : ℤ) - (mandatoryPicks pool).length := by
    unfold neededOther neededSlots
    ring
  have hmand := mandatoryPicks_length_le pool
  constructor
  · show ((mandatoryPicks pool ++ governanceFill pool cfg ++ otherFill pool cfg).countP
        (fun a => isGovernanceStory a)) = _
    rw [List.countP_append, List.countP_append, hgc, hgl, hoc]
    rfl
  · show (mandatoryPicks pool ++ governanceFill pool cfg ++ otherFill pool cfg).length = _
    rw [List.length_append, List.length_append, hgl, hol]
    omega

unseal Rat.mul Rat.sub in
/-- Witness for C1 on the concrete ten-article pool under the default
configuration. -/
theorem c1_governance_ratio_witness :
    (autoSelectArticles poolC1 {}).headlines.countP (fun a => isGovernanceStory a)
      = currentGovernance poolC1 + (neededGovernance poolC1 {}).toNat ∧
    (autoSelectArticles poolC1 {}).headlines.length = ({} : SelectorConfig).targetHeadlines :=
  c1_governance_ratio poolC1 {} (by decide) (by decide) (by decide) (by decide)

/-! ## Claim C2: section quotas -/

unseal Rat.mul Rat.sub in
/-- Claim C2, original reading, refuted three ways: (a) with one headline
slot the two mandatory picks already give 2 > 1 headlines; (b) the grain
section is returned without any quota truncation (2 articles against a
configured quota of 1); (c) with `governance_ratio = 1.0` the computed
`needed_other` goes negative and the Python slice `other_articles[:-1]`
*adds* all but the last non-governance article, yielding 5 > 2 headlines. -/
theorem c2_quota_counterexample :
    ((autoSelectArticles poolC2a cfgC2a).headlines.length = 2 ∧
        cfgC2a.targetHeadlines = 1) ∧
      ((autoSelectArticles poolC2a cfgC2a).grainQuality.length = 2 ∧
        cfgC2a.targetGrainQuality = 1) ∧
      ((autoSelectArticles poolC2b cfgC2b).headlines.length = 5 ∧
        cfgC2b.targetHeadlines = 2) := by
  refine ⟨⟨by decide, by decide⟩, ⟨by decide, by decide⟩, by decide, by decide⟩

/-- Claim C2, amended: provided the headline target is at least 2 (covering
the mandatory picks) and the governance ratio is below 1 (so the fill
arithmetic cannot go negative), every section except `grain_quality`
respects its quota; `grain_quality` is returned with *no* quota applied —
it is the entire grain-classified pool whenever the section is enabled. -/
theorem c2_quota (pool : List Article) (cfg : SelectorConfig)
    (h2 : 2 ≤ cfg.targetHeadlines) (hr : cfg.governanceRatio < 1) :
    (autoSelectArticles pool cfg).headlines.length ≤ cfg.targetHeadlines ∧
    (autoSelectArticles pool cfg).brightSpots.length ≤ cfg.targetBrightSpots ∧
    (autoSelectArticles pool cfg).tools.length ≤ cfg.targetTools ∧
    (autoSelectArticles pool cfg).deepDives.length ≤ cfg.targetDeepDives ∧
    (autoSelectArticles pool cfg).grainQuality
      = (if cfg.grainEnabled then
          pool.filter (fun a => decide (bucketOf a = "grain_quality"))
        else []) := by
  refine ⟨?_, ?_, ?_, ?_, rfl⟩
  · have hg0 : 0 ≤ neededGovernance pool cfg := le_max_left _ _
    have hno := neededOther_nonneg pool h2 hr
    have hgl := length_pyTake_le_toNat hg0 (governanceArticles pool)
    have hol := length_pyTake_le_toNat hno (otherArticles pool)
    have hsum : neededGovernance pool cfg + neededOther pool cfg
        = (cfg.targetHeadlines : ℤ) - (mandatoryPicks pool).length := by
      unfold neededOther neededSlots
      ring
    have hmand := mandatoryPicks_length_le pool
    show (mandatoryPicks pool ++ governanceFill pool cfg ++ otherFill pool cfg).length ≤ _
    rw [List.length_append, List.length_append]
    unfold governanceFill otherFill at *
    omega
  · simp [autoSelectArticles]
  · simp [autoSelectArticles]
  · simp [autoSelectArticles]

unseal Rat.mul Rat.sub in
/-- Witness for C2 on the concrete ten-article pool under the default
configuration. -/
theorem c2_quota_witness :
    (autoSelectArticles poolC1 {}).headlines.length ≤ ({} : SelectorConfig).targetHeadlines ∧
    (autoSelectArticles poolC1 {}).brightSpots.length ≤ ({} : SelectorConfig).targetBrightSpots ∧
    (autoSelectArticles poolC1 {}).tools.length ≤ ({} : SelectorConfig).targetTools ∧
    (autoSelectArticles poolC1 {}).deepDives.length ≤ ({} : SelectorConfig).targetDeepDives ∧
    (autoSelectArticles poolC1 {}).grainQuality
      = (if ({} : SelectorConfig).grainEnabled then
          poolC1.filter (fun a => decide (bucketOf a = "grain_quality"))
        else []) :=
  c2_quota poolC1 {} (by decide) (by decide)

/-! ## Claims C5 and C6: the incremental cache -/

theorem analyze_empty (cache : Option CacheData) :
    analyzeHistoricalSelections [] cache
      = { profile := {}, cacheAfter := cache, filesRead := [] } := rfl

theorem analyze_none_of_ne_nil {disk : List (String × Option ReviewData)}
    (hne : disk ≠ []) :
    analyzeHistoricalSelections disk none =
      { profile := buildProfileFromStats (processFiles initialStats disk)
        cacheAfter := some { processedFiles := (disk.map (fun f => f.1)).dedup
                             stats := processFiles initialStats disk }
        filesRead := (sortReviewFiles disk).map (fun f => f.1) } := by
  have hde : disk.isEmpty = false := by
    cases disk
    · exact absurd rfl hne
    · rfl
  have hfil : disk.filter (fun f => !(([] : List String).contains f.1)) = disk :=
    List.filter_eq_self.2 (fun a _ => rfl)
  unfold analyzeHistoricalSelections
  simp only [hde, hfil]
  simp
  exact hne

theorem analyze_cached_noop {disk : List (String × Option ReviewData)}
    (C : CacheData) (hne : disk ≠ [])
    (hall : ∀ f ∈ disk, C.processedFiles.contains f.1 = true)
    (hsub : ∀ n ∈ C.processedFiles, (disk.map (fun f => f.1)).contains n = true) :
    analyzeHistoricalSelections disk (some C)
      = { profile := buildProfileFromStats C.stats, cacheAfter := some C,
          filesRead := [] } := by
  have hde : disk.isEmpty = false := by
    cases disk
    · exact absurd rfl hne
    · rfl
  have hnew : disk.filter (fun f => !(C.processedFiles.contains f.1)) = [] := by
    rw [List.filter_eq_nil_iff]
    intro a ha
    simp only [hall a ha, Bool.not_true, Bool.false_eq_true, not_false_eq_true]
  have hmiss : C.processedFiles.filter
      (fun n => !((disk.map (fun f => f.1)).contains n)) = [] := by
    rw [List.filter_eq_nil_iff]
    intro n hn
    simp only [hsub n hn, Bool.not_true, Bool.false_eq_true, not_false_eq_true]
  unfold analyzeHistoricalSelections
  simp only [hde, hnew, hmiss]
  simp

/-- Claim C5, amended core: when the disk still holds at least one review
file and some previously-processed file is missing, the run over the stale
cache is observably identical — returned profile, resulting cache file and
file reads — to a run with no pre-existing cache over the remaining files. -/
theorem c5_cache_rebuild (disk : List (String × Option ReviewData))
    (cache : CacheData) (hne : disk ≠ [])
    (hmiss : ∃ n ∈ cache.processedFiles, ¬ n ∈ disk.map (fun f => f.1)) :
    analyzeHistoricalSelections disk (some cache)
      = analyzeHistoricalSelections disk none := by
  have hde : disk.isEmpty = false := by
    cases disk
    · exact absurd rfl hne
    · rfl
  obtain ⟨n, hn, hnin⟩ := hmiss
  have hmem : n ∈ cache.processedFiles.filter
      (fun m => !((disk.map (fun f => f.1)).contains m)) := by
    refine List.mem_filter.2 ⟨hn, ?_⟩
    simp [hnin]
  have hmiss' : (cache.processedFiles.filter
      (fun m => !((disk.map (fun f => f.1)).contains m))).isEmpty = false := by
    cases hflt : cache.processedFiles.filter
        (fun m => !((disk.map (fun f => f.1)).contains m)) with
    | nil => rw [hflt] at hmem; cases hmem
    | cons x xs => rfl
  rw [analyze_none_of_ne_nil hne]
  unfold analyzeHistoricalSelections
  simp only [hde, hmiss']
  simp

/-- Claim C5, original reading, refuted at the degenerate case: with at
least one recorded file missing but *zero* review files remaining on disk,
the learner returns early without discarding the stale cache file, so the
run is not equivalent to a cache-free run (which would leave no cache). -/
theorem c5_cache_rebuild_counterexample :
    cacheC5.processedFiles ≠ [] ∧
      (∀ n ∈ cacheC5.processedFiles,
        ¬ n ∈ ([] : List (String × Option ReviewData)).map (fun f => f.1)) ∧
      analyzeHistoricalSelections [] (some cacheC5)
        ≠ analyzeHistoricalSelections [] none ∧
      (analyzeHistoricalSelections [] (some cacheC5)).cacheAfter = some cacheC5 ∧
      (analyzeHistoricalSelections [] none).cacheAfter = none := by
  refine ⟨by decide, by decide, by decide, by decide, by decide⟩

/-- Witness for C5: one review file on disk, one differently-named file
recorded in the cache. -/
theorem c5_cache_rebuild_witness :
    analyzeHistoricalSelections diskC5 (some cacheC5)
      = analyzeHistoricalSelections diskC5 none :=
  c5_cache_rebuild diskC5 cacheC5 (by decide) (by decide)

/-- Claim C6: running the learner a second time over an unchanged set of
review files yields a field-for-field identical profile, leaves the cache
file untouched (so it is identical to the first run's), and opens no review
file at all. -/
theorem c6_idempotent (disk : List (String × Option ReviewData)) :
    (analyzeHistoricalSelections disk
        (analyzeHistoricalSelections disk none).cacheAfter).profile
      = (analyzeHistoricalSelections disk none).profile ∧
    (analyzeHistoricalSelections disk
        (analyzeHistoricalSelections disk none).cacheAfter).cacheAfter
      = (analyzeHistoricalSelections disk none).cacheAfter ∧
    (analyzeHistoricalSelections disk
        (analyzeHistoricalSelections disk none).cacheAfter).filesRead = [] := by
  by_cases hd : disk = []
  · subst hd
    exact ⟨rfl, rfl, rfl⟩
  · have h1 := analyze_none_of_ne_nil hd
    have hall : ∀ f ∈ disk,
        ((disk.map (fun f => f.1)).dedup).contains f.1 = true := by
      intro f hf
      have : f.1 ∈ (disk.map (fun f => f.1)).dedup :=
        List.mem_dedup.2 (List.mem_map.2 ⟨f, hf, rfl⟩)
      exact List.elem_eq_true_of_mem this
    have hsub : ∀ n ∈ (disk.map (fun f => f.1)).dedup,
        (disk.map (fun f => f.1)).contains n = true := by
      intro n hn
      exact List.elem_eq_true_of_mem (List.mem_dedup.1 hn)
    have h2 := analyze_cached_noop
        { processedFiles := (disk.map (fun f => f.1)).dedup
          stats := processFiles initialStats disk } hd hall hsub
    rw [h1]
    dsimp only
    rw [h2]
    exact ⟨rfl, rfl, rfl⟩
